import Mathlib

/-
Verification of the Whisper frontend core behaviors:
the plan-entitlement resolver (frontend/src/contexts/AuthContext.jsx) and
the streaming text-to-speech playback client
(frontend/src/services/websocketTtsService.js, frontend/src/components/Pricing.jsx).

The JavaScript sources are embedded shallowly: the nested entitlement table
becomes an inductive tree of booleans and objects, path lookup becomes a
structural walk, and the stateful WebSocket client becomes explicit state
passing on a record type.
-/

namespace Whisper

/-- A JavaScript-like value as used by the entitlement table: either a boolean
leaf flag or a nested object (an ordered list of key/value properties). -/
inductive JVal where
| bool : Bool → JVal
| obj : List (String × JVal) → JVal

/-- Own-property lookup on the entries of a JavaScript object literal. This
models only own keys: real JavaScript `key in o` and `o[key]` also consult
the prototype chain and find `Object.prototype` members such as `toString`;
that full behavior is modelled by `getProp` below, and the difference is
observable (see the prototype counterexample to fail-closed lookup). -/
def lookupKey {α : Type} : List (String × α) → String → Option α
| [], _ => none
| (k, v) :: rest, key => if k = key then some v else lookupKey rest key

/-- JavaScript truthiness restricted to the values that occur here:
`Boolean(b) = b` for a boolean, and every object is truthy. -/
def jTruthy : JVal → Bool
| JVal.bool b => b
| JVal.obj _ => true

/-- Whether a value is an object, the embedding of
`current && typeof current === 'object'` (objects are always truthy). -/
def isObj : JVal → Bool
| JVal.bool _ => false
| JVal.obj _ => true

/-- The embedding of JavaScript `featurePath.split('.')` on the character
list: splitting on `.` keeps empty segments and maps `""` to `[""]`. -/
def splitDots : List Char → List (List Char)
| [] => [[]]
| c :: rest =>
  if c = '.' then [] :: splitDots rest
  else
    match splitDots rest with
    | [] => [[c]]
    | g :: gs => (c :: g) :: gs

/-- `featurePath.split('.')` as a function on `String`. -/
def splitPath (s : String) : List String :=
  (splitDots s.data).map (fun cs => String.mk cs)

/-- The `free` entry of `PLAN_CONSTRAINTS` (AuthContext.jsx lines 188-223). -/
def freePlan : JVal :=
  JVal.obj
    [ ("dashboard", JVal.obj
        [ ("home", JVal.bool true)
        , ("my_channels", JVal.bool false)
        , ("topics", JVal.bool false)
        , ("saved", JVal.bool false)
        , ("queues", JVal.bool false)
        , ("youtube", JVal.bool false) ])
    , ("analysis", JVal.obj
        [ ("ai_analysis", JVal.obj
            [ ("executive_summary", JVal.bool true)
            , ("summary_to_speech", JVal.bool false)
            , ("detailed_analysis", JVal.bool true)
            , ("key_insights", JVal.bool false)
            , ("people_companies_mentioned", JVal.bool false)
            , ("topic_analysis", JVal.bool false)
            , ("tone_analysis", JVal.bool false) ])
        , ("transcript", JVal.bool true)
        , ("time_range", JVal.bool false)
        , ("q_and_a", JVal.bool false)
        , ("translation", JVal.bool false) ])
    , ("features", JVal.obj
        [ ("video_processing", JVal.bool true)
        , ("basic_analysis", JVal.bool true)
        , ("transcript_access", JVal.bool true)
        , ("channel_following", JVal.bool false)
        , ("youtube_search", JVal.bool false)
        , ("time_range_summary", JVal.bool false)
        , ("qa_features", JVal.bool false)
        , ("translation", JVal.bool false)
        , ("tts", JVal.bool false) ]) ]

/-- The `basic` entry of `PLAN_CONSTRAINTS` (AuthContext.jsx lines 224-259). -/
def basicPlan : JVal :=
  JVal.obj
    [ ("dashboard", JVal.obj
        [ ("home", JVal.bool true)
        , ("my_channels", JVal.bool true)
        , ("topics", JVal.bool false)
        , ("saved", JVal.bool false)
        , ("queues", JVal.bool false)
        , ("youtube", JVal.bool false) ])
    , ("analysis", JVal.obj
        [ ("ai_analysis", JVal.obj
            [ ("executive_summary", JVal.bool true)
            , ("summary_to_speech", JVal.bool true)
            , ("detailed_analysis", JVal.bool true)
            , ("key_insights", JVal.bool true)
            , ("people_companies_mentioned", JVal.bool true)
            , ("topic_analysis", JVal.bool true)
            , ("tone_analysis", JVal.bool false) ])
        , ("transcript", JVal.bool true)
        , ("time_range", JVal.bool true)
        , ("q_and_a", JVal.bool true)
        , ("translation", JVal.bool false) ])
    , ("features", JVal.obj
        [ ("video_processing", JVal.bool true)
        , ("basic_analysis", JVal.bool true)
        , ("transcript_access", JVal.bool true)
        , ("channel_following", JVal.bool true)
        , ("youtube_search", JVal.bool false)
        , ("time_range_summary", JVal.bool true)
        , ("qa_features", JVal.bool true)
        , ("translation", JVal.bool false)
        , ("tts", JVal.bool true) ]) ]

/-- The `premium` entry of `PLAN_CONSTRAINTS` (AuthContext.jsx lines 260-295). -/
def premiumPlan : JVal :=
  JVal.obj
    [ ("dashboard", JVal.obj
        [ ("home", JVal.bool true)
        , ("my_channels", JVal.bool true)
        , ("topics", JVal.bool true)
        , ("saved", JVal.bool true)
        , ("queues", JVal.bool true)
        , ("youtube", JVal.bool true) ])
    , ("analysis", JVal.obj
        [ ("ai_analysis", JVal.obj
            [ ("executive_summary", JVal.bool true)
            , ("summary_to_speech", JVal.bool true)
            , ("detailed_analysis", JVal.bool true)
            , ("key_insights", JVal.bool true)
            , ("people_companies_mentioned", JVal.bool true)
            , ("topic_analysis", JVal.bool true)
            , ("tone_analysis", JVal.bool true) ])
        , ("transcript", JVal.bool true)
        , ("time_range", JVal.bool true)
        , ("q_and_a", JVal.bool true)
        , ("translation", JVal.bool true) ])
    , ("features", JVal.obj
        [ ("video_processing", JVal.bool true)
        , ("basic_analysis", JVal.bool true)
        , ("transcript_access", JVal.bool true)
        , ("channel_following", JVal.bool true)
        , ("youtube_search", JVal.bool true)
        , ("time_range_summary", JVal.bool true)
        , ("qa_features", JVal.bool true)
        , ("translation", JVal.bool true)
        , ("tts", JVal.bool true) ]) ]

/-- `PLAN_CONSTRAINTS` as an ordered object: `Object.entries` enumerates the
three string keys in insertion order `free`, `basic`, `premium`. -/
def PLAN_CONSTRAINTS : List (String × JVal) :=
  [("free", freePlan), ("basic", basicPlan), ("premium", premiumPlan)]

/-- Own-key approximation of `getPlanConstraints(planType)`:
`PLAN_CONSTRAINTS[planType] || PLAN_CONSTRAINTS.free`. A missing own key
gives `undefined`, which is falsy, so the `free` table is the default. Real
JavaScript property access also finds inherited `Object.prototype` members
for tier names such as `toString`, which are truthy and returned as-is; that
behavior is modelled by `getPlanConstraintsJS` below. -/
def getPlanConstraints (planType : String) : JVal :=
  match lookupKey PLAN_CONSTRAINTS planType with
  | some v => if jTruthy v then v else freePlan
  | none => freePlan

/-- The loop body of `hasFeatureAccess` over own properties only: walk the
nested table one path segment at a time, returning `none` where the
JavaScript loop returns `false` (current not a truthy object, or segment not
an own property). The walk under full JavaScript property semantics,
prototype chain included, is `walkJS` below. -/
def walkOpt : JVal → List String → Option JVal
| cur, [] => some cur
| cur, part :: rest =>
  if jTruthy cur && isObj cur then
    match cur with
    | JVal.obj entries =>
      match lookupKey entries part with
      | some v => walkOpt v rest
      | none => none
    | JVal.bool _ => none
  else none

/-- `hasFeatureAccess(planType, featurePath)` (AuthContext.jsx lines 304-318)
restricted to own properties; the same lookup under full JavaScript property
semantics, prototype chain included, is `hasFeatureAccessJS` below. Split
the path on `.`, walk the tier's table, return `false` on any miss and
`Boolean(current)` at the end. -/
def hasFeatureAccess (planType featurePath : String) : Bool :=
  match walkOpt (getPlanConstraints planType) (splitPath featurePath) with
  | some v => jTruthy v
  | none => false

/-- The same walk with JavaScript exceptions made explicit: applying `in` to a
non-object value would throw a `TypeError`, and the `error` constructor records
it. The guard `current && typeof current === 'object'` in the source is kept,
which is what makes the error branch unreachable. -/
def walkExc : JVal → List String → Except String Bool
| cur, [] => Except.ok (jTruthy cur)
| cur, part :: rest =>
  if jTruthy cur && isObj cur then
    match cur with
    | JVal.obj entries =>
      match lookupKey entries part with
      | some v => walkExc v rest
      | none => Except.ok false
    | JVal.bool _ => Except.error "TypeError: cannot use in operator on a non-object"
  else Except.ok false

/-- `hasFeatureAccess` with exception propagation made explicit. -/
def hasFeatureAccessExc (planType featurePath : String) : Except String Bool :=
  walkExc (getPlanConstraints planType) (splitPath featurePath)

/-- The `planNames` display-name object inside `getUpgradeMessage`. -/
def planNames : List (String × String) :=
  [("free", "Free"), ("basic", "Basic"), ("premium", "Premium")]

/-- `getUpgradeMessage(currentPlan, requiredPlan)` (AuthContext.jsx lines
321-329): a template string naming the required tier; an unknown tier key
yields JavaScript `undefined`, rendered as the text `undefined`. -/
def getUpgradeMessage (currentPlan requiredPlan : String) : String :=
  let shown := (lookupKey planNames requiredPlan).getD "undefined"
  "This feature is available in " ++ shown ++
    " plan and above. Upgrade to unlock this feature."

/-- The loop of `getRequiredPlan`: scan `Object.entries(PLAN_CONSTRAINTS)` in
insertion order and return the first tier granting the path. -/
def findPlanLoop : List (String × JVal) → String → Option String
| [], _ => none
| (planType, _) :: rest, featurePath =>
  if hasFeatureAccess planType featurePath then some planType
  else findPlanLoop rest featurePath

/-- `getRequiredPlan(featurePath)` (AuthContext.jsx lines 332-340): the first
tier in table order whose `hasFeatureAccess` is true, else `premium`. -/
def getRequiredPlan (featurePath : String) : String :=
  (findPlanLoop PLAN_CONSTRAINTS featurePath).getD "premium"

/-- Enumerate every path defined in an entitlement tree, to bounded depth
(the table is three levels deep; fuel 4 is exact for it). The root is the
empty path; a leaf contributes the path reaching it. -/
def subPathsFuel : Nat → JVal → List (List String)
| 0, _ => []
| _ + 1, JVal.bool _ => [[]]
| n + 1, JVal.obj entries =>
  [] :: (entries.map (fun kv => (subPathsFuel n kv.2).map (fun p => kv.1 :: p))).flatten

/-- Rejoin a split path with dots, inverse of `splitPath` on dot-free keys. -/
def joinPath (parts : List String) : String :=
  String.intercalate "." parts

/-- All dot-joined feature paths defined anywhere in `PLAN_CONSTRAINTS`
(the three tiers share one key structure, so this is the union). -/
def definedPaths : List String :=
  ((PLAN_CONSTRAINTS.map (fun kv => subPathsFuel 4 kv.2)).flatten).map joinPath

/- ----------------------------------------------------------------------
Streaming playback client (frontend/src/services/websocketTtsService.js).
The mutable fields of `WebSocketTTSService` become a record; each handler
becomes a function from state to state plus the events it emits and the
reconnect timer it schedules (the delay passed to `setTimeout`, if any).
---------------------------------------------------------------------- -/

/-- An event emitted to listeners of the streaming client. -/
inductive TTSEvent where
| connectedEv : Bool → TTSEvent
| errorEv : String → TTSEvent
deriving DecidableEq

/-- The mutable state of `WebSocketTTSService`: connection flag, reconnect
counter and ceiling, current backoff delay, and whether `this.ws` is set. -/
structure TTSClient where
  isConnected : Bool
  reconnectAttempts : Nat
  maxReconnectAttempts : Nat
  reconnectDelay : Nat
  hasWs : Bool
deriving DecidableEq

/-- The constructor state (websocketTtsService.js lines 3-11). -/
def initClient : TTSClient :=
  { isConnected := false
  , reconnectAttempts := 0
  , maxReconnectAttempts := 5
  , reconnectDelay := 1000
  , hasWs := false }

/-- The result of running one handler: the new state, the events emitted, and
the delay of the reconnect timer it scheduled, if any. -/
structure HandlerResult where
  state : TTSClient
  events : List TTSEvent
  scheduled : Option Nat
deriving DecidableEq

/-- `attemptReconnect()` (lines 81-96): below the ceiling it increments the
counter and schedules `connect()` after the current delay; at the ceiling it
emits the terminal error and schedules nothing. -/
def attemptReconnect (s : TTSClient) : HandlerResult :=
  if s.reconnectAttempts < s.maxReconnectAttempts then
    { state := { s with reconnectAttempts := s.reconnectAttempts + 1 }
    , events := []
    , scheduled := some s.reconnectDelay }
  else
    { state := s
    , events :=
        [TTSEvent.errorEv
          "Connection lost and reconnection failed. Please refresh the page."]
    , scheduled := none }

/-- The `onopen` handler (lines 25-36): marks connected, resets the reconnect
counter and delay, emits `connected true`, and resolves the connect promise. -/
def onOpen (s : TTSClient) : HandlerResult :=
  { state :=
      { s with isConnected := true, reconnectAttempts := 0
             , reconnectDelay := 1000, hasWs := true }
  , events := [TTSEvent.connectedEv true]
  , scheduled := none }

/-- The `onclose` handler (lines 48-61): clears the connection flag, emits
`connected false`, and calls `attemptReconnect` exactly when the close was not
clean and the code is not 1000. -/
def onClose (wasClean : Bool) (code : Nat) (s : TTSClient) : HandlerResult :=
  let s1 := { s with isConnected := false }
  if !wasClean && code != 1000 then
    let r := attemptReconnect s1
    { r with events := TTSEvent.connectedEv false :: r.events }
  else
    { state := s1, events := [TTSEvent.connectedEv false], scheduled := none }

/-- One failed reconnect attempt, as the browser delivers it: the scheduled
`connect()` fails, so `onerror` emits an error and rejects the promise, the
`.catch` doubles `reconnectDelay` (line 89), and then the unclean `onclose`
(abnormal closure code 1006) runs `attemptReconnect` again. -/
def connectFailCycle (s : TTSClient) : HandlerResult :=
  let s1 := { s with reconnectDelay := s.reconnectDelay * 2 }
  let r := onClose false 1006 s1
  { r with events := TTSEvent.errorEv "WebSocket connection failed" :: r.events }

/-- Iterate `connectFailCycle` `n` times, collecting the scheduled delays of
each cycle in order (`none` marks a cycle that scheduled no retry). -/
def runFailCycles : Nat → TTSClient → TTSClient × List (Option Nat)
| 0, s => (s, [])
| n + 1, s =>
  ((runFailCycles n (connectFailCycle s).state).1,
   (connectFailCycle s).scheduled :: (runFailCycles n (connectFailCycle s).state).2)

/-- An outbound synthesis request, the object literal built by
`streamTextToSpeech` (lines 130-136). -/
structure OutMsg where
  text : String
  voice_id : Option String
  model_id : Option String
  voice_settings : Option String
  chunk_length_schedule : Option (List Nat)
deriving DecidableEq

/-- `sendMessage(message)` (lines 116-123): sends exactly when connected with
a live socket, otherwise throws `WebSocket not connected`. The list is the
messages actually written to the socket. -/
def sendMessage (s : TTSClient) (m : OutMsg) : Except String Unit × List OutMsg :=
  if s.isConnected && s.hasWs then (Except.ok (), [m])
  else (Except.error "WebSocket not connected", [])

/-- `streamTextToSpeech(text, options)` (lines 125-139): throws immediately
when not connected; otherwise builds the request object and sends it. -/
def streamTextToSpeech (s : TTSClient) (text : String)
    (voiceId modelId voiceSettings : Option String)
    (chunkLengthSchedule : Option (List Nat)) :
    Except String Unit × List OutMsg :=
  if !s.isConnected then
    (Except.error "WebSocket not connected. Call connect() first.", [])
  else
    sendMessage s
      { text := text
      , voice_id := voiceId
      , model_id := modelId
      , voice_settings := voiceSettings
      , chunk_length_schedule := chunkLengthSchedule }

/- ----------------------------------------------------------------------
Audio chunk accumulation (frontend/src/components/Pricing.jsx,
SimpleStreamingAudioPlayer.handleAudioChunk): each `audio_chunk` message
carries a base64 payload, decoded by the browser primitive `atob` to a byte
string; the handler appends the bytes and rebuilds the combined buffer.
`atob` is passed in as the decode function.
---------------------------------------------------------------------- -/

/-- The player state touched by `handleAudioChunk`: the accumulated ordered
chunk list and the server-reported `totalSize`. -/
structure PlayerState where
  audioChunks : List (List Nat)
  totalSize : Nat
deriving DecidableEq

/-- `handleAudioChunk(data)`: decode `data.audio_base64` with `atob`, append
the byte array to the accumulated chunks, and store `data.total_size`. -/
def handleAudioChunk (atob : String → List Nat)
    (audio_base64 : String) (total_size : Nat) (p : PlayerState) : PlayerState :=
  { audioChunks := p.audioChunks ++ [atob audio_base64]
  , totalSize := total_size }

/-- The combined contiguous buffer rebuilt on each append: a single array of
the accumulated chunks in order (the bytes behind the playable blob). -/
def combinedBuffer (p : PlayerState) : List Nat :=
  p.audioChunks.flatten

/- ----------------------------------------------------------------------
Logout (AuthContext.jsx lines 145-159 and apiService.js logout): the server
call result is passed in as an `Except`; the model returns the session state
after logout together with the outcome visible to the caller.
---------------------------------------------------------------------- -/

/-- The local session state logout manipulates: the `user` state, the `token`
state, and `localStorage` as an association list. -/
structure AuthState where
  user : Option String
  token : Option String
  storage : List (String × String)

/-- `localStorage.removeItem(key)`. -/
def removeItem (storage : List (String × String)) (key : String) :
    List (String × String) :=
  storage.filter (fun kv => kv.1 != key)

/-- `apiService.logout()` (apiService.js lines 71-78): posts to
`/auth/logout` and swallows any failure, so it always resolves. -/
def apiLogout (serverResult : Except String Unit) : Except String Unit :=
  match serverResult with
  | Except.ok _ => Except.ok ()
  | Except.error _ => Except.ok ()

/-- `AuthProvider.logout` (AuthContext.jsx lines 145-159): awaits
`apiService.logout()`, swallows any error, and in the `finally` block always
clears `user`, `token` and the stored `whisper_token`. -/
def logoutFlow (serverResult : Except String Unit) (s : AuthState) :
    AuthState × Except String Unit :=
  let cleared : AuthState :=
    { user := none
    , token := none
    , storage := removeItem s.storage "whisper_token" }
  match apiLogout serverResult with
  | Except.ok _ => (cleared, Except.ok ())
  | Except.error _ => (cleared, Except.ok ())

example : hasFeatureAccess "free" "dashboard.home" = true := rfl
example : hasFeatureAccess "free" "dashboard.my_channels" = false := rfl
example : hasFeatureAccess "premium" "dashboard.topics" = true := rfl
example : hasFeatureAccess "enterprise" "dashboard.home" = true := rfl
example : hasFeatureAccess "free" "" = false := rfl
example : getRequiredPlan "features.channel_following" = "basic" := rfl
example : getRequiredPlan "no.such.feature" = "premium" := rfl

/-- A feature path that resolves, for the given tier, to an interior object
node of the entitlement table rather than to a boolean leaf. -/
def isInteriorPath (planType featurePath : String) : Bool :=
  match walkOpt (getPlanConstraints planType) (splitPath featurePath) with
  | some (JVal.obj _) => true
  | _ => false

/- ----------------------------------------------------------------------
Full JavaScript property semantics for the entitlement lookup. The
own-property model above drops the prototype chain, but real JavaScript
`in` and `o[key]` on an object literal also find the members inherited
from `Object.prototype` (`toString`, `constructor`, `__proto__`, ...),
and `hasFeatureAccess` observably grants such paths: `Boolean` of an
inherited function is `true`. The model below includes the chain.
---------------------------------------------------------------------- -/

/-- A JavaScript value reachable by the entitlement walk under full property
semantics: a boolean leaf, `null` (the prototype of `Object.prototype`), an
inherited built-in function tagged by its name, a plain object literal whose
prototype is `Object.prototype`, or `Object.prototype` itself. -/
inductive JSVal where
| bool : Bool → JSVal
| jsNull : JSVal
| func : String → JSVal
| objLit : List (String × JSVal) → JSVal
| objProto : JSVal

/-- JavaScript truthiness on these values: `null` is falsy, functions and
objects are truthy. -/
def jsTruthy : JSVal → Bool
| JSVal.bool b => b
| JSVal.jsNull => false
| JSVal.func _ => true
| JSVal.objLit _ => true
| JSVal.objProto => true

/-- `typeof v === 'object'`: true for object literals, `Object.prototype` and
`null` (whose `typeof` is famously `'object'`); false for booleans and
functions (whose `typeof` is `'function'`). -/
def typeofObject : JSVal → Bool
| JSVal.bool _ => false
| JSVal.jsNull => true
| JSVal.func _ => false
| JSVal.objLit _ => true
| JSVal.objProto => true

/-- The property names `Object.prototype` provides to every object literal
(ECMA-262, including the Annex B accessor pairs shipped by browsers). -/
def protoNames : List String :=
  [ "__proto__", "constructor", "hasOwnProperty", "isPrototypeOf"
  , "propertyIsEnumerable", "toLocaleString", "toString", "valueOf"
  , "__defineGetter__", "__defineSetter__", "__lookupGetter__"
  , "__lookupSetter__" ]

/-- Reading an `Object.prototype` member through a receiver: the `__proto__`
accessor returns the receiver's prototype (`Object.prototype` for a literal,
`null` for `Object.prototype` itself); every other member is a built-in
function; anything else is absent. -/
def protoLookup (receiver : JSVal) (key : String) : Option JSVal :=
  if key = "__proto__" then
    some (match receiver with
          | JSVal.objProto => JSVal.jsNull
          | _ => JSVal.objProto)
  else if protoNames.contains key then some (JSVal.func key)
  else none

/-- Own-property read under full semantics: only object literals carry own
data properties here (`Object.prototype` members are reached through
`protoLookup`). -/
def ownProp : JSVal → String → Option JSVal
| JSVal.objLit entries, key => lookupKey entries key
| _, _ => none

/-- `key in cur` / `cur[key]` with the prototype chain: own properties first,
then the members inherited from `Object.prototype`. -/
def getProp (cur : JSVal) (key : String) : Option JSVal :=
  match ownProp cur key with
  | some v => some v
  | none =>
    match cur with
    | JSVal.objLit entries => protoLookup (JSVal.objLit entries) key
    | JSVal.objProto => protoLookup JSVal.objProto key
    | _ => none

/-- The `hasFeatureAccess` loop under full property semantics: the guard
`current && typeof current === 'object'` stops on `null`, booleans and
functions; otherwise `part in current` / `current[part]` consults the chain. -/
def walkJS : JSVal → List String → Option JSVal
| cur, [] => some cur
| cur, part :: rest =>
  if jsTruthy cur && typeofObject cur then
    match getProp cur part with
    | some v => walkJS v rest
    | none => none
  else none

/-- The same loop with own-property lookup only, for comparison: where this
walk succeeds or misses, the path stayed on (or fell off) the literal table. -/
def walkOwn : JSVal → List String → Option JSVal
| cur, [] => some cur
| cur, part :: rest =>
  if jsTruthy cur && typeofObject cur then
    match ownProp cur part with
    | some v => walkOwn v rest
    | none => none
  else none

/-- Structure-preserving conversion of the entitlement tree into the full
model, by fuel (the table is three levels deep, so fuel 4 is exact). -/
def toJSFuel : Nat → JVal → JSVal
| 0, _ => JSVal.jsNull
| _ + 1, JVal.bool b => JSVal.bool b
| n + 1, JVal.obj entries =>
  JSVal.objLit (entries.map (fun kv => (kv.1, toJSFuel n kv.2)))

/-- The `free` table as a JavaScript object literal. -/
def freePlanJS : JSVal := toJSFuel 4 freePlan

/-- The `basic` table as a JavaScript object literal. -/
def basicPlanJS : JSVal := toJSFuel 4 basicPlan

/-- The `premium` table as a JavaScript object literal. -/
def premiumPlanJS : JSVal := toJSFuel 4 premiumPlan

/-- `PLAN_CONSTRAINTS` as a JavaScript object literal (with, implicitly,
`Object.prototype` behind it). -/
def PLAN_CONSTRAINTS_JS : JSVal :=
  JSVal.objLit
    [("free", freePlanJS), ("basic", basicPlanJS), ("premium", premiumPlanJS)]

/-- `getPlanConstraints(planType)` under full semantics:
`PLAN_CONSTRAINTS[planType] || PLAN_CONSTRAINTS.free`, where the property
read consults the prototype chain, so a tier named after an
`Object.prototype` member yields that inherited (truthy) member rather than
the `free` default. -/
def getPlanConstraintsJS (planType : String) : JSVal :=
  match getProp PLAN_CONSTRAINTS_JS planType with
  | some v => if jsTruthy v then v else freePlanJS
  | none => freePlanJS

/-- `hasFeatureAccess(planType, featurePath)` under full JavaScript property
semantics: split on `.`, walk with the prototype chain, coerce the final
value with `Boolean`. -/
def hasFeatureAccessJS (planType featurePath : String) : Bool :=
  match walkJS (getPlanConstraintsJS planType) (splitPath featurePath) with
  | some v => jsTruthy v
  | none => false

/-- The explicit-exception walk never reaches its `TypeError` branch and
computes exactly the boolean the plain walk computes: the type guard in the
source keeps the `in` operator away from non-objects. -/
theorem walkExc_eq_ok : ∀ (parts : List String) (cur : JVal),
    walkExc cur parts =
      Except.ok (match walkOpt cur parts with
                 | some v => jTruthy v
                 | none => false)
| [], cur => by cases cur <;> rfl
| part :: rest, cur => by
  cases cur with
  | bool b => cases b <;> rfl
  | obj entries =>
    show walkExc (JVal.obj entries) (part :: rest) = _
    simp only [walkExc, walkOpt, jTruthy, isObj, Bool.and_self, if_true]
    cases lookupKey entries part with
    | none => rfl
    | some v => exact walkExc_eq_ok rest v

/-- After removing a key, looking that key up fails. -/
theorem lookupKey_removeItem (key : String) :
    ∀ st : List (String × String),
      lookupKey (removeItem st key) key = none
| [] => rfl
| (k, v) :: rest => by
  by_cases h : k = key
  · simpa [removeItem, h] using lookupKey_removeItem key rest
  · simpa [removeItem, lookupKey, h] using lookupKey_removeItem key rest

/-- A key that is not an `Object.prototype` member is not found on the
prototype chain. -/
theorem protoLookup_eq_none (r : JSVal) (key : String)
    (h : protoNames.contains key = false) : protoLookup r key = none := by
  have h1 : key ≠ "__proto__" := by
    intro he
    subst he
    simp [protoNames] at h
  unfold protoLookup
  rw [if_neg h1, if_neg (by simpa using h)]

/-- When no path segment names an `Object.prototype` member, the full walk
and the own-property walk agree: the prototype chain is never consulted. -/
theorem walkJS_eq_walkOwn : ∀ (parts : List String) (v : JSVal),
    parts.all (fun seg => !(protoNames.contains seg)) = true →
    walkJS v parts = walkOwn v parts
| [], _, _ => rfl
| part :: rest, v, h => by
  have hc := List.all_cons .. ▸ h
  have hp : protoNames.contains part = false := by
    have := (Bool.and_eq_true .. ▸ hc).1
    simpa using this
  have hr : rest.all (fun seg => !(protoNames.contains seg)) = true :=
    (Bool.and_eq_true .. ▸ hc).2
  cases v with
  | bool b => cases b <;> rfl
  | jsNull => rfl
  | func f => rfl
  | objProto =>
    simp [walkJS, walkOwn, jsTruthy, typeofObject, getProp, ownProp,
          protoLookup_eq_none _ _ hp]
  | objLit entries =>
    cases ho : lookupKey entries part with
    | some w =>
      simp [walkJS, walkOwn, jsTruthy, typeofObject, getProp, ownProp, ho,
            walkJS_eq_walkOwn rest w hr]
    | none =>
      simp [walkJS, walkOwn, jsTruthy, typeofObject, getProp, ownProp, ho,
            protoLookup_eq_none _ _ hp]

/-- Counterexample to claim C1 as stated: under real JavaScript property
semantics the lookup is not fail-closed. The path `toString` is not defined
in the free table (the own-property walk misses), yet access is granted —
the inherited `Object.prototype.toString` function is truthy. Likewise the
unrecognized tier `toString` does not fall back to the free table: the tier
lookup finds the inherited function, so a path the free tier grants is
denied under it. -/
theorem C1_prototype_chain_counterexample :
    walkOwn (getPlanConstraintsJS "free") (splitPath "toString") = none ∧
    hasFeatureAccessJS "free" "toString" = true ∧
    ownProp PLAN_CONSTRAINTS_JS "toString" = none ∧
    getPlanConstraintsJS "toString" = JSVal.func "toString" ∧
    hasFeatureAccessJS "toString" "dashboard.home" = false ∧
    hasFeatureAccessJS "free" "dashboard.home" = true :=
  ⟨rfl, rfl, rfl, rfl, rfl, rfl⟩

/-- Claim C1, amended: `hasFeatureAccess` splits the feature path on `.` and
walks the tier's nested table segment by segment under JavaScript property
semantics, so lookups also see the members inherited from `Object.prototype`.
A tier key that is missing — provided the tier name is not an
`Object.prototype` member — defaults to the free tier's table and answers as
the free tier does; a walk that misses yields `false`; and every feature path
not defined in the table whose segments name no `Object.prototype` member is
denied. Paths or tiers naming inherited members escape this fail-closed rule,
as the counterexample shows. -/
theorem C1_resolve_access_fails_closed_off_prototype :
    (∀ t p, hasFeatureAccessJS t p =
      match walkJS (getPlanConstraintsJS t) (splitPath p) with
      | some v => jsTruthy v
      | none => false) ∧
    (∀ t, protoNames.contains t = false →
      ownProp PLAN_CONSTRAINTS_JS t = none →
      getPlanConstraintsJS t = freePlanJS) ∧
    (∀ t p, protoNames.contains t = false →
      ownProp PLAN_CONSTRAINTS_JS t = none →
      hasFeatureAccessJS t p = hasFeatureAccessJS "free" p) ∧
    (∀ t p, walkJS (getPlanConstraintsJS t) (splitPath p) = none →
      hasFeatureAccessJS t p = false) ∧
    (∀ t p, (splitPath p).all (fun seg => !(protoNames.contains seg)) = true →
      walkOwn (getPlanConstraintsJS t) (splitPath p) = none →
      hasFeatureAccessJS t p = false) := by
  have hdef : ∀ t, protoNames.contains t = false →
      ownProp PLAN_CONSTRAINTS_JS t = none →
      getPlanConstraintsJS t = freePlanJS := by
    intro t hproto hown
    have hg : getProp PLAN_CONSTRAINTS_JS t = none := by
      unfold getProp
      rw [hown]
      exact protoLookup_eq_none _ _ hproto
    unfold getPlanConstraintsJS
    rw [hg]
  refine ⟨fun t p => rfl, hdef, ?_, ?_, ?_⟩
  · intro t p hproto hown
    unfold hasFeatureAccessJS
    rw [hdef t hproto hown]
    rfl
  · intro t p hw
    unfold hasFeatureAccessJS
    rw [hw]
  · intro t p hseg hmiss
    unfold hasFeatureAccessJS
    rw [walkJS_eq_walkOwn (splitPath p) (getPlanConstraintsJS t) hseg, hmiss]

/-- Witness for the amended C1: the unrecognized tier `gold` is no prototype
member, so it answers from the free table; and `no.such.feature`, defined
nowhere and free of prototype names, is denied. -/
theorem C1_resolve_access_fails_closed_off_prototype_witness :
    getPlanConstraintsJS "gold" = freePlanJS ∧
    hasFeatureAccessJS "gold" "dashboard.home" =
      hasFeatureAccessJS "free" "dashboard.home" ∧
    hasFeatureAccessJS "free" "no.such.feature" = false :=
  ⟨C1_resolve_access_fails_closed_off_prototype.2.1 "gold" (by decide) rfl,
   C1_resolve_access_fails_closed_off_prototype.2.2.1 "gold" "dashboard.home"
     (by decide) rfl,
   C1_resolve_access_fails_closed_off_prototype.2.2.2.2 "free" "no.such.feature"
     (by decide) rfl⟩

/-- Claim C2: for every tier and every feature path — empty, malformed or
absent included — `hasFeatureAccess` computes a boolean and never throws: the
exception-explicit embedding always returns `ok` of that boolean. -/
theorem C2_resolve_access_total_never_throws :
    ∀ (t p : String), hasFeatureAccessExc t p = Except.ok (hasFeatureAccess t p) := by
  intro t p
  unfold hasFeatureAccessExc hasFeatureAccess
  exact walkExc_eq_ok (splitPath p) (getPlanConstraints t)

/-- Claim C3: for every feature path defined in the entitlement table, access
granted to `basic` is granted to `premium` (superset invariant); moreover
`analysis.ai_analysis.executive_summary` is enabled for all three tiers and
`dashboard.topics` is disabled for free and basic but enabled for premium. -/
theorem C3_premium_superset_of_basic :
    (∀ p ∈ definedPaths,
       hasFeatureAccess "basic" p = true → hasFeatureAccess "premium" p = true) ∧
    hasFeatureAccess "free" "analysis.ai_analysis.executive_summary" = true ∧
    hasFeatureAccess "basic" "analysis.ai_analysis.executive_summary" = true ∧
    hasFeatureAccess "premium" "analysis.ai_analysis.executive_summary" = true ∧
    hasFeatureAccess "free" "dashboard.topics" = false ∧
    hasFeatureAccess "basic" "dashboard.topics" = false ∧
    hasFeatureAccess "premium" "dashboard.topics" = true := by
  refine ⟨?_, rfl, rfl, rfl, rfl, rfl, rfl⟩
  intro p hp hb
  have hall : definedPaths.all
      (fun q => !hasFeatureAccess "basic" q || hasFeatureAccess "premium" q) = true := by
    decide
  have h := List.all_eq_true.mp hall p hp
  simpa [hb] using h

/-- Witness for C3: `dashboard.my_channels` is defined in the table and basic
grants it, so premium grants it. -/
theorem C3_premium_superset_of_basic_witness :
    hasFeatureAccess "premium" "dashboard.my_channels" = true :=
  C3_premium_superset_of_basic.1 "dashboard.my_channels" (by decide) rfl

/-- Claim C4: `getRequiredPlan` scans tiers in the fixed order free, basic,
premium and returns the first tier granting the path; when no tier grants it,
it returns `premium`; and `features.channel_following` requires `basic`. -/
theorem C4_required_plan_is_first_granting_tier :
    (PLAN_CONSTRAINTS.map Prod.fst = ["free", "basic", "premium"]) ∧
    (∀ p, hasFeatureAccess "free" p = true → getRequiredPlan p = "free") ∧
    (∀ p, hasFeatureAccess "free" p = false → hasFeatureAccess "basic" p = true →
       getRequiredPlan p = "basic") ∧
    (∀ p, hasFeatureAccess "free" p = false → hasFeatureAccess "basic" p = false →
       hasFeatureAccess "premium" p = true → getRequiredPlan p = "premium") ∧
    (∀ p, hasFeatureAccess "free" p = false → hasFeatureAccess "basic" p = false →
       hasFeatureAccess "premium" p = false → getRequiredPlan p = "premium") ∧
    getRequiredPlan "features.channel_following" = "basic" := by
  refine ⟨rfl, ?_, ?_, ?_, ?_, rfl⟩
  · intro p h1
    simp [getRequiredPlan, findPlanLoop, PLAN_CONSTRAINTS, h1]
  · intro p h1 h2
    simp [getRequiredPlan, findPlanLoop, PLAN_CONSTRAINTS, h1, h2]
  · intro p h1 h2 h3
    simp [getRequiredPlan, findPlanLoop, PLAN_CONSTRAINTS, h1, h2, h3]
  · intro p h1 h2 h3
    simp [getRequiredPlan, findPlanLoop, PLAN_CONSTRAINTS, h1, h2, h3]

/-- Witness for C4: `features.channel_following` is denied to free and granted
to basic, so the required plan is `basic`. -/
theorem C4_required_plan_is_first_granting_tier_witness :
    getRequiredPlan "features.channel_following" = "basic" :=
  C4_required_plan_is_first_granting_tier.2.2.1 "features.channel_following" rfl rfl

/-- `attemptReconnect` keeps the counter at or below the ceiling and never
changes the ceiling. -/
theorem attemptReconnect_counter_bounded (s : TTSClient)
    (h : s.reconnectAttempts ≤ s.maxReconnectAttempts) :
    (attemptReconnect s).state.reconnectAttempts ≤ s.maxReconnectAttempts ∧
    (attemptReconnect s).state.maxReconnectAttempts = s.maxReconnectAttempts := by
  unfold attemptReconnect
  split
  · next hlt => exact ⟨hlt, rfl⟩
  · exact ⟨h, rfl⟩

/-- One failed reconnect cycle keeps the counter at or below the ceiling and
never changes the ceiling. -/
theorem connectFailCycle_counter_bounded (s : TTSClient)
    (h : s.reconnectAttempts ≤ s.maxReconnectAttempts) :
    (connectFailCycle s).state.reconnectAttempts ≤ s.maxReconnectAttempts ∧
    (connectFailCycle s).state.maxReconnectAttempts = s.maxReconnectAttempts := by
  have hb := attemptReconnect_counter_bounded
    { s with reconnectDelay := s.reconnectDelay * 2, isConnected := false } h
  simpa [connectFailCycle, onClose] using hb

/-- Any number of failed reconnect cycles keeps the counter at or below the
ceiling. -/
theorem runFailCycles_counter_bounded : ∀ (n : Nat) (s : TTSClient),
    s.reconnectAttempts ≤ s.maxReconnectAttempts →
    (runFailCycles n s).1.reconnectAttempts ≤ s.maxReconnectAttempts
| 0, _, h => h
| n + 1, s, h => by
  have hc := connectFailCycle_counter_bounded s h
  have hstep : (connectFailCycle s).state.reconnectAttempts ≤
      (connectFailCycle s).state.maxReconnectAttempts := by
    rw [hc.2]
    exact hc.1
  have hih := runFailCycles_counter_bounded n (connectFailCycle s).state hstep
  rw [hc.2] at hih
  exact hih

/-- Claim C5: after an unexpected close (`wasClean = false`, code 1006 ≠ 1000)
of a connected client, reconnect attempt 1 is scheduled after the base delay
of 1000 ms; each failed attempt doubles the delay (2000, 4000, 8000, 16000);
after the fifth attempt fails the client emits the terminal error and
schedules nothing further, and the attempt counter never exceeds the ceiling
of five. -/
theorem C5_reconnect_backoff_five_attempts_then_terminal :
    ((onClose false 1006 (onOpen initClient).state).scheduled = some 1000 ∧
     (onClose false 1006 (onOpen initClient).state).state.reconnectAttempts = 1 ∧
     (runFailCycles 5 (onClose false 1006 (onOpen initClient).state).state).2 =
       [some 2000, some 4000, some 8000, some 16000, none] ∧
     (connectFailCycle
        (runFailCycles 4 (onClose false 1006 (onOpen initClient).state).state).1).events =
       [TTSEvent.errorEv "WebSocket connection failed",
        TTSEvent.connectedEv false,
        TTSEvent.errorEv
          "Connection lost and reconnection failed. Please refresh the page."] ∧
     (connectFailCycle
        (runFailCycles 4 (onClose false 1006 (onOpen initClient).state).state).1).scheduled =
       none) ∧
    (∀ s : TTSClient, s.maxReconnectAttempts ≤ s.reconnectAttempts →
       (attemptReconnect s).scheduled = none ∧
       (attemptReconnect s).state.reconnectAttempts = s.reconnectAttempts ∧
       (attemptReconnect s).events =
         [TTSEvent.errorEv
           "Connection lost and reconnection failed. Please refresh the page."]) ∧
    (∀ (n : Nat) (s : TTSClient), s.reconnectAttempts ≤ s.maxReconnectAttempts →
       (runFailCycles n s).1.reconnectAttempts ≤ s.maxReconnectAttempts) := by
  refine ⟨⟨by decide, by decide, by decide, by decide, by decide⟩, ?_, ?_⟩
  · intro s h
    unfold attemptReconnect
    rw [if_neg (by omega)]
    exact ⟨rfl, rfl, rfl⟩
  · exact runFailCycles_counter_bounded

/-- Witness for C5: at the ceiling the reconnect handler emits the terminal
error and schedules nothing, and seven straight failures starting from the
fresh client never push the counter past five. -/
theorem C5_reconnect_backoff_five_attempts_then_terminal_witness :
    ((attemptReconnect
        { isConnected := false, reconnectAttempts := 5, maxReconnectAttempts := 5
        , reconnectDelay := 32000, hasWs := true }).scheduled = none ∧
     (attemptReconnect
        { isConnected := false, reconnectAttempts := 5, maxReconnectAttempts := 5
        , reconnectDelay := 32000, hasWs := true }).state.reconnectAttempts = 5 ∧
     (attemptReconnect
        { isConnected := false, reconnectAttempts := 5, maxReconnectAttempts := 5
        , reconnectDelay := 32000, hasWs := true }).events =
       [TTSEvent.errorEv
         "Connection lost and reconnection failed. Please refresh the page."]) ∧
    (runFailCycles 7 initClient).1.reconnectAttempts ≤ initClient.maxReconnectAttempts :=
  ⟨C5_reconnect_backoff_five_attempts_then_terminal.2.1
     { isConnected := false, reconnectAttempts := 5, maxReconnectAttempts := 5
     , reconnectDelay := 32000, hasWs := true } (by decide),
   C5_reconnect_backoff_five_attempts_then_terminal.2.2 7 initClient (by decide)⟩

/-- Claim C6: calling `streamTextToSpeech` while disconnected throws
immediately with the `not connected` error and writes nothing to the socket,
whatever the text and options. -/
theorem C6_stream_tts_fails_fast_when_disconnected :
    ∀ (s : TTSClient) (text : String)
      (voiceId modelId voiceSettings : Option String)
      (chunkLengthSchedule : Option (List Nat)),
      s.isConnected = false →
      streamTextToSpeech s text voiceId modelId voiceSettings chunkLengthSchedule =
        (Except.error "WebSocket not connected. Call connect() first.", []) := by
  intro s text vId mId vs cls h
  simp [streamTextToSpeech, h]

/-- Witness for C6: the freshly constructed client is disconnected, so a
request on it errors and sends nothing. -/
theorem C6_stream_tts_fails_fast_when_disconnected_witness :
    streamTextToSpeech initClient "hello" none none none none =
      (Except.error "WebSocket not connected. Call connect() first.", []) :=
  C6_stream_tts_fails_fast_when_disconnected initClient "hello" none none none none rfl

/-- Claim C7: once the open handler has run — the only place the connect
promise resolves — `isConnected` is true; and after two sequential audio
chunks whose decoded payloads are 100 and 200 bytes, the rebuilt contiguous
buffer has 300 bytes and `totalSize` is the latest chunk's reported total. -/
theorem C7_connect_sets_connected_and_chunks_accumulate :
    (∀ s : TTSClient, (onOpen s).state.isConnected = true ∧
       (onOpen s).events = [TTSEvent.connectedEv true]) ∧
    (∀ (atob : String → List Nat) (b1 b2 : String) (t1 t2 : Nat) (p0 : PlayerState),
       p0.audioChunks = [] →
       (atob b1).length = 100 →
       (atob b2).length = 200 →
       (combinedBuffer
          (handleAudioChunk atob b2 t2 (handleAudioChunk atob b1 t1 p0))).length = 300 ∧
       (handleAudioChunk atob b2 t2 (handleAudioChunk atob b1 t1 p0)).totalSize = t2) := by
  constructor
  · intro s
    exact ⟨rfl, rfl⟩
  · intro atob b1 b2 t1 t2 p0 h0 h1 h2
    refine ⟨?_, rfl⟩
    simp [combinedBuffer, handleAudioChunk, h0, h1, h2]

/-- Witness for C7: a concrete decoder producing 100 bytes for `a` and 200
bytes for `aa`, starting from the empty player state. -/
theorem C7_connect_sets_connected_and_chunks_accumulate_witness :
    (onOpen initClient).state.isConnected = true ∧
    (combinedBuffer
       (handleAudioChunk (fun s => List.replicate (100 * s.length) 0) "aa" 300
         (handleAudioChunk (fun s => List.replicate (100 * s.length) 0) "a" 100
           { audioChunks := [], totalSize := 0 }))).length = 300 ∧
    (handleAudioChunk (fun s => List.replicate (100 * s.length) 0) "aa" 300
       (handleAudioChunk (fun s => List.replicate (100 * s.length) 0) "a" 100
         { audioChunks := [], totalSize := 0 })).totalSize = 300 :=
  ⟨(C7_connect_sets_connected_and_chunks_accumulate.1 initClient).1,
   (C7_connect_sets_connected_and_chunks_accumulate.2
      (fun s => List.replicate (100 * s.length) 0) "a" "aa" 100 300
      { audioChunks := [], totalSize := 0 } rfl (by decide) (by decide)).1,
   (C7_connect_sets_connected_and_chunks_accumulate.2
      (fun s => List.replicate (100 * s.length) 0) "a" "aa" 100 300
      { audioChunks := [], totalSize := 0 } rfl (by decide) (by decide)).2⟩

/-- Claim C8: on the free tier `dashboard.my_channels` is denied and the
upgrade message produced for it names the Basic plan; on the premium tier the
same path is granted. -/
theorem C8_free_denied_my_channels_premium_granted :
    hasFeatureAccess "free" "dashboard.my_channels" = false ∧
    getRequiredPlan "dashboard.my_channels" = "basic" ∧
    getUpgradeMessage "free" (getRequiredPlan "dashboard.my_channels") =
      "This feature is available in Basic plan and above. Upgrade to unlock this feature." ∧
    hasFeatureAccess "premium" "dashboard.my_channels" = true :=
  ⟨rfl, rfl, by decide, rfl⟩

/-- Claim C9: a feature path naming an interior group node of the table (for
example `dashboard`, `features`, `analysis`, or `analysis.ai_analysis`) is
granted for every tier, because the final value is an object and objects are
truthy; denial-by-default applies only to paths that step outside the table. -/
theorem C9_interior_group_paths_granted :
    (["free", "basic", "premium"].all (fun t =>
       ["dashboard", "analysis", "features", "analysis.ai_analysis"].all
         (fun p => hasFeatureAccess t p)) = true) ∧
    (∀ t p, isInteriorPath t p = true → hasFeatureAccess t p = true) := by
  refine ⟨by decide, ?_⟩
  intro t p h
  unfold isInteriorPath at h
  unfold hasFeatureAccess
  cases hw : walkOpt (getPlanConstraints t) (splitPath p) with
  | none =>
    rw [hw] at h
    exact absurd h (by simp)
  | some v =>
    cases v with
    | bool b =>
      rw [hw] at h
      simp at h
    | obj es =>
      rfl

/-- Witness for C9: `dashboard` resolves to an interior object node for the
free tier and is therefore granted. -/
theorem C9_interior_group_paths_granted_witness :
    hasFeatureAccess "free" "dashboard" = true :=
  C9_interior_group_paths_granted.2 "free" "dashboard" rfl

/-- Claim C10: whatever the server logout call does, `logout` clears the local
session — user and token become null and the stored token is removed — and the
operation itself resolves successfully, never rejecting. -/
theorem C10_logout_always_clears_session_never_rejects :
    ∀ (serverResult : Except String Unit) (s : AuthState),
      (logoutFlow serverResult s).1.user = none ∧
      (logoutFlow serverResult s).1.token = none ∧
      lookupKey (logoutFlow serverResult s).1.storage "whisper_token" = none ∧
      (logoutFlow serverResult s).2 = Except.ok () := by
  intro r s
  cases r with
  | ok u =>
    exact ⟨rfl, rfl, lookupKey_removeItem "whisper_token" s.storage, rfl⟩
  | error e =>
    exact ⟨rfl, rfl, lookupKey_removeItem "whisper_token" s.storage, rfl⟩

end Whisper
